import Mathlib

/-!
Verification development for the Office Room Allocation data core
(`models.py` of the MP_Office_Management repository).

The Python code is shallowly embedded: pandas DataFrames of occupant
records become `List Person`, the room-capacity dict becomes an
association list `List (String × Int)`, and the float arithmetic of the
percentage column is modelled over `ℚ`, with the IEEE special values
that pandas produces on division by zero represented explicitly by the
`PVal` type (`posInf`, `negInf`, `nan`).  Numpy's `.round(1)` is
modelled as exact half-to-even rounding at one decimal over `ℚ`.
-/

/-- One occupant record: a row of the `current`/`upcoming`/`past`
DataFrames with columns Name, Status, Email address, Position, Office,
Building (all free text). -/
structure Person where
  name : String
  status : String
  email : String
  position : String
  office : String
  building : String
deriving DecidableEq

/-- Value of the `Percentage` column.  Pandas float division by zero
yields `inf` / `-inf` / `NaN` instead of raising, so the column is a
float that is either an ordinary number (modelled exactly by `ℚ`) or
one of those special values. -/
inductive PVal where
  | val (q : ℚ)
  | posInf
  | negInf
  | nan
deriving DecidableEq

/-- Comparison `p <= q` for a float modelled by `PVal` against an
ordinary number, with IEEE semantics: `inf <= q` is false, `-inf <= q`
is true, and any comparison with `NaN` is false. -/
def PVal.leQ (p : PVal) (q : ℚ) : Bool :=
  match p with
  | .val x => decide (x ≤ q)
  | .posInf => false
  | .negInf => true
  | .nan => false

/-- Round the fraction `a / b` (with `b ≠ 0`) half to even to the
nearest integer, as numpy does, using only integer arithmetic: the sign
is moved to the numerator, `q` is the floor of the quotient and the
fractional remainder `r / b'` is compared against `1 / 2`. -/
def halfEvenDiv (a b : ℤ) : ℤ :=
  let a' := if b < 0 then -a else a
  let b' := if b < 0 then -b else b
  let q := Int.fdiv a' b'
  let r := a' - q * b'
  if 2 * r < b' then q
  else if 2 * r > b' then q + 1
  else if q % 2 = 0 then q else q + 1

/-- The exact value of numpy's `(occ / cap * 100).round(1)` for
`cap ≠ 0`: rounding `occ / cap * 100` half to even at one decimal place
is rounding `1000 * occ / cap` half to even to an integer count of
tenths, and the result is that count divided by 10.  (`Rat.divInt`
keeps the construction of the rational kernel-computable.) -/
def pctRound1 (occ cap : ℤ) : ℚ := Rat.divInt (halfEvenDiv (1000 * occ) cap) 10

/-- The `Percentage` column entry: `(occupants / max_capacity * 100).round(1)`
with pandas semantics when `max_capacity == 0` (the quotient is `NaN`
when the numerator is also 0, otherwise a signed infinity; `* 100` and
`.round(1)` keep the special values). -/
def percentageOf (occ : ℤ) (cap : ℤ) : PVal :=
  if cap = 0 then
    if occ = 0 then .nan else if occ > 0 then .posInf else .negInf
  else
    .val (pctRound1 occ cap)

/-- Uppercase the characters of a string (Python `case=False` matching
is modelled by uppercasing the subject and matching an uppercase
pattern). -/
def upperChars (s : String) : List Char := s.data.map Char.toUpper

/-- Whether `pat` is a prefix of `l` (character lists). -/
def chPre : List Char → List Char → Bool
  | [], _ => true
  | _ :: _, [] => false
  | a :: as, b :: bs => a == b && chPre as bs

/-- Whether `pat` occurs as a contiguous sublist of `l`. -/
def chSub (pat : List Char) : List Char → Bool
  | [] => pat.isEmpty
  | b :: bs => chPre pat (b :: bs) || chSub pat bs

/-- Case-insensitive substring test: models
`Series.str.contains(pat, case=False)` for an uppercase literal `pat`. -/
def containsCI (pat s : String) : Bool := chSub pat.data (upperChars s)

/-- Embeds `extract_floor` (models.py lines 9-16): the part of the
office string before the first `.`, or `"Unknown"` when there is no
`.` in it. -/
def extract_floor (office : String) : String :=
  if '.' ∈ office.data then (office.data.takeWhile (fun c => c ≠ '.')).asString
  else "Unknown"

/-- The composite room key `f"{building}:{office}"`. -/
def roomKey (building office : String) : String := building ++ ":" ++ office

/-- Dict lookup `room_capacities.get(key, 2)` (default capacity 2). -/
def capLookup (caps : List (String × Int)) (k : String) : Int :=
  match caps.find? (fun e => e.1 == k) with
  | some e => e.2
  | none => 2

/-- Embeds `RoomOccupancy._get_room_status` (models.py lines 66-86). -/
def get_room_status (is_storage : Bool) (occupants : Nat) (remaining : Int)
    (percentage : PVal) : String :=
  if is_storage then "storage"
  else if occupants = 0 then "vacant"
  else if remaining < 0 then "overfilled"
  else if percentage.leQ 25 then "low"
  else if percentage.leQ 50 then "medium"
  else if percentage.leQ 75 then "high"
  else "full"

/-- Modelled from the spec: the priority-ordered status table of
spec §4.1 (first matching tier wins), used to compare the code's
classifier against the specified decision tree. -/
def statusSpec (is_storage : Bool) (occupants : Nat) (remaining : Int)
    (percentage : PVal) : String :=
  if is_storage then "storage"
  else if occupants = 0 then "vacant"
  else if remaining < 0 then "overfilled"
  else if percentage.leQ 25 then "low"
  else if percentage.leQ 50 then "medium"
  else if percentage.leQ 75 then "high"
  else "full"

/-- One row of the derived occupancy table. -/
structure OccRow where
  building : String
  office : String
  occupants : Nat
  floor : String
  isStorage : Bool
  maxCapacity : Int
  remaining : Int
  percentage : PVal
  status : String
deriving DecidableEq

instance : Inhabited OccRow :=
  ⟨⟨"", "", 0, "", false, 0, 0, .nan, ""⟩⟩

/-- Lexicographic strict comparison of character lists, computed
structurally (Python compares strings by code point, as does Lean's
`String` order). -/
def chLt : List Char → List Char → Bool
  | [], [] => false
  | [], _ :: _ => true
  | _ :: _, [] => false
  | a :: as, b :: bs =>
    if a < b then true else if b < a then false else chLt as bs

/-- Strict string comparison via `chLt` (equivalent to `<` on
`String`, but kernel-computable). -/
def strLt (a b : String) : Bool := chLt a.data b.data

/-- Non-strict string comparison. -/
def strLe (a b : String) : Bool := strLt a b || a == b

/-- Ordering used by `sort_values(['Building', 'Floor', 'Office'])`:
lexicographic on the triple of strings, each component compared as a
string (pandas compares object columns with Python string order). -/
def rowLe (a b : OccRow) : Prop :=
  strLt a.building b.building = true ∨
    (a.building = b.building ∧
      (strLt a.floor b.floor = true ∨
        (a.floor = b.floor ∧ strLe a.office b.office = true)))

instance : DecidableRel rowLe := fun a b => by
  unfold rowLe; exact inferInstance

/-- Ordering of group keys produced by
`groupby(['Building', 'Office'])` (pandas sorts group keys). -/
def keyLe (a b : String × String) : Prop :=
  strLt a.1 b.1 = true ∨ (a.1 = b.1 ∧ strLe a.2 b.2 = true)

instance : DecidableRel keyLe := fun a b => by
  unfold keyLe; exact inferInstance

/-- Builds the derived row for the group key `k = (building, office)`
from the full current roster `rows` (lines 35-59 of models.py: the
occupant count is the group size; the storage flag searches the whole
roster restricted to the room for a name containing STORAGE
case-insensitively; capacity is looked up with default 2). -/
def mkRow (rows : List Person) (caps : List (String × Int))
    (k : String × String) : OccRow :=
  let grp := rows.filter (fun p => p.building == k.1 && p.office == k.2)
  let occ := grp.length
  let cap := capLookup caps (roomKey k.1 k.2)
  let isSt := grp.any (fun p => containsCI "STORAGE" p.name)
  let rem := cap - (occ : Int)
  let pct := percentageOf (occ : Int) cap
  { building := k.1
    office := k.2
    occupants := occ
    floor := extract_floor k.2
    isStorage := isSt
    maxCapacity := cap
    remaining := rem
    percentage := pct
    status := get_room_status isSt occ rem pct }

/-- Embeds the body of `RoomOccupancy.calculate_occupancy`
(models.py lines 34-64) for a roster that has all required columns:
group by (Building, Office) in sorted key order, derive each row's
metrics, and sort the result by (Building, Floor, Office). -/
def calcRows (rows : List Person) (caps : List (String × Int)) : List OccRow :=
  let keys := List.insertionSort keyLe ((rows.map (fun p => (p.building, p.office))).dedup)
  List.insertionSort rowLe (keys.map (mkRow rows caps))

/-- A current-roster DataFrame as `calculate_occupancy` sees it: the
rows together with flags recording which of the three columns the
computation touches are actually present. -/
structure DataTable where
  hasName : Bool
  hasOffice : Bool
  hasBuilding : Bool
  rows : List Person
deriving DecidableEq

/-- Embeds `RoomOccupancy.calculate_occupancy` (models.py lines 28-64)
including its defensive guard: an empty roster or a missing Office or
Building column yields an empty table (line 30); a roster that passes
that guard but lacks the Name column raises `KeyError` at line 42
(`self.df['Name']`), modelled by `Except.error`. -/
def calculate_occupancy (df : DataTable) (caps : List (String × Int)) :
    Except String (List OccRow) :=
  if df.rows.isEmpty || !df.hasOffice || !df.hasBuilding then .ok []
  else if !df.hasName then .error "KeyError: Name"
  else .ok (calcRows df.rows caps)

/-- The three occupant partitions owned by `OccupantManager`. -/
structure OccMgr where
  current_df : List Person
  upcoming_df : List Person
  past_df : List Person
deriving DecidableEq

/-- Embeds `OccupantManager.add_occupant` (models.py lines 185-196):
appends to the partition selected by `status`; any other status falls
through the `if`/`elif` chain with no effect, and the function returns
`True` unconditionally. -/
def add_occupant (m : OccMgr) (occupant_data : Person) (status : String) :
    OccMgr × Bool :=
  if status == "Current" then
    ({ m with current_df := m.current_df ++ [occupant_data] }, true)
  else if status == "Upcoming" then
    ({ m with upcoming_df := m.upcoming_df ++ [occupant_data] }, true)
  else if status == "Past" then
    ({ m with past_df := m.past_df ++ [occupant_data] }, true)
  else (m, true)

/-- The row-removal loop shared by the three partition updaters
(`for occupant in moved: updated_df = updated_df[updated_df['Name'] != occupant['Name']]`). -/
def dropNames (moved : List Person) (df : List Person) : List Person :=
  moved.foldl (fun acc occ => acc.filter (fun r => r.name != occ.name)) df

/-- Embeds `OccupantManager.update_current_occupants` (models.py lines
198-226): rows of the submitted grid whose Status is `Upcoming` or
`Past` are collected, every row sharing a Name with one of them is
dropped from the submitted grid, the remainder replaces the current
partition, and the collected rows are appended to their partitions. -/
def update_current_occupants (m : OccMgr) (updated_df : List Person) : OccMgr :=
  { current_df := dropNames (updated_df.filter (fun r => r.status == "Upcoming") ++
      updated_df.filter (fun r => r.status == "Past")) updated_df
    upcoming_df := m.upcoming_df ++ updated_df.filter (fun r => r.status == "Upcoming")
    past_df := m.past_df ++ updated_df.filter (fun r => r.status == "Past") }

/-- Embeds `OccupantManager.update_upcoming_occupants` (models.py lines
228-256), the same pattern with the `Current` and `Past` statuses
extracted. -/
def update_upcoming_occupants (m : OccMgr) (updated_df : List Person) : OccMgr :=
  { current_df := m.current_df ++ updated_df.filter (fun r => r.status == "Current")
    upcoming_df := dropNames (updated_df.filter (fun r => r.status == "Current") ++
      updated_df.filter (fun r => r.status == "Past")) updated_df
    past_df := m.past_df ++ updated_df.filter (fun r => r.status == "Past") }

/-- Embeds `OccupantManager.update_past_occupants` (models.py lines
258-286), the same pattern with the `Current` and `Upcoming` statuses
extracted. -/
def update_past_occupants (m : OccMgr) (updated_df : List Person) : OccMgr :=
  { current_df := m.current_df ++ updated_df.filter (fun r => r.status == "Current")
    upcoming_df := m.upcoming_df ++ updated_df.filter (fun r => r.status == "Upcoming")
    past_df := dropNames (updated_df.filter (fun r => r.status == "Current") ++
      updated_df.filter (fun r => r.status == "Upcoming")) updated_df }

/-- Updates the first record whose Name equals `name` (the code takes
`occupant_idx[0]` of the exact-match mask and writes Building/Office
with `df.loc`); `none` when the mask is empty. -/
def assignFirst (name building office : String) : List Person → Option (List Person)
  | [] => none
  | p :: rest =>
    if p.name == name then
      some ({ p with building := building, office := office } :: rest)
    else
      (assignFirst name building office rest).map (p :: ·)

/-- Embeds `OccupantManager.assign_occupant_to_room` (models.py lines
288-325): UI status labels are normalised, the partition is selected
(`Current` or `Upcoming`; any other status returns `False` at line
302), and the first exact Name match gets its Building/Office set;
no match returns `False` with no store touched. -/
def assign_occupant_to_room (m : OccMgr) (name building office status : String) :
    OccMgr × Bool :=
  let status1 :=
    if status == "Current Occupants" then "Current"
    else if status == "Upcoming Occupants" then "Upcoming"
    else status
  if status1 == "Current" then
    match assignFirst name building office m.current_df with
    | some df => ({ m with current_df := df }, true)
    | none => (m, false)
  else if status1 == "Upcoming" then
    match assignFirst name building office m.upcoming_df with
    | some df => ({ m with upcoming_df := df }, true)
    | none => (m, false)
  else (m, false)

/-- State owned by `RoomManager`: the occupant partitions plus the
room-capacity dict (the derived `room_occupancy` is recomputed from
these on demand and carries no extra state). -/
structure RoomMgrState where
  mgr : OccMgr
  caps : List (String × Int)
deriving DecidableEq

/-- Whether record `p` sits in room `(building, office)` (the pandas
mask `(df['Building'] == building) & (df['Office'] == office)`). -/
def atRoom (building office : String) (p : Person) : Bool :=
  p.building == building && p.office == office

/-- Dict deletion `del caps[k]` (no-op when the key is absent). -/
def capErase (caps : List (String × Int)) (k : String) : List (String × Int) :=
  caps.filter (fun e => e.1 != k)

/-- Dict upsert `caps[k] = v`. -/
def capInsert (caps : List (String × Int)) (k : String) (v : Int) :
    List (String × Int) :=
  if caps.any (fun e => e.1 == k) then
    caps.map (fun e => if e.1 == k then (k, v) else e)
  else caps ++ [(k, v)]

/-- Embeds `RoomManager.delete_room` (models.py lines 416-447): the
capacity entry is removed and, for each of the three partitions, the
records matching the room mask are dropped (the code short-circuits on
an empty frame or an empty mask, leaving the frame untouched). -/
def delete_room (st : RoomMgrState) (building office : String) : RoomMgrState :=
  let prune := fun (df : List Person) =>
    if df.isEmpty then df
    else if df.any (atRoom building office) then
      df.filter (fun p => !atRoom building office p)
    else df
  { mgr :=
      { current_df := prune st.mgr.current_df
        upcoming_df := prune st.mgr.upcoming_df
        past_df := prune st.mgr.past_df }
    caps := capErase st.caps (roomKey building office) }

/-- The fresh `STORAGE` sentinel inserted by room conversion. -/
def storageRecord (building office : String) : Person :=
  { name := "STORAGE", status := "Current", email := "", position := ""
    office := office, building := building }

/-- The fresh `PLACEHOLDER` sentinel inserted by room conversion. -/
def placeholderRecord (building office : String) : Person :=
  { name := "PLACEHOLDER", status := "Current", email := "", position := ""
    office := office, building := building }

/-- A record of the old room relocated to the new room, all other
fields preserved. -/
def reloc (nb no : String) (p : Person) : Person :=
  { p with building := nb, office := no }

/-- The per-partition relocation step of `update_room` (models.py lines
484-509): records at the old room are rewritten to the new room and
re-appended; a partition with no such record is left untouched. -/
def relocateDF (b o nb no : String) (df : List Person) : List Person :=
  let room_occupants := (df.filter (atRoom b o)).map (reloc nb no)
  if room_occupants.isEmpty then df
  else df.filter (fun p => !atRoom b o p) ++ room_occupants

/-- The `was_storage` probe of `update_room` (models.py lines 459-466):
some current record of the old room has a name containing `STORAGE`
case-insensitively. -/
def wasStorage (cur : List Person) (building office : String) : Bool :=
  cur.any (fun p => atRoom building office p && containsCI "STORAGE" p.name)

/-- Embeds `RoomManager.update_room` (models.py lines 449-561), called
`rename_or_retype_room` in the spec.  The capacity entry moves from the
old key to the new key; every partition relocates the room's records;
then, when the storage flag changes, the current partition is patched:
regular→storage wipes every current record at the new room and inserts
a `STORAGE` sentinel, storage→regular removes the `STORAGE` records
and, if the new room is left empty, inserts a `PLACEHOLDER`.  When the
flag changes but the current partition had no record at the old room,
`changes_current` is still the initial Python list `[]`, and
`changes_current.empty` raises `AttributeError` — modelled by
`Except.error`. -/
def update_room (st : RoomMgrState) (building office nb no : String)
    (new_capacity : Int) (new_type : String) : Except String RoomMgrState :=
  if wasStorage st.mgr.current_df building office != (new_type == "Storage") then
    if ((st.mgr.current_df.filter (atRoom building office)).map (reloc nb no)).isEmpty then
      .error "AttributeError: list object has no attribute empty"
    else if new_type == "Storage" then
      .ok { mgr :=
              { current_df := (relocateDF building office nb no st.mgr.current_df).filter
                  (fun p => !atRoom nb no p) ++ [storageRecord nb no]
                upcoming_df := relocateDF building office nb no st.mgr.upcoming_df
                past_df := relocateDF building office nb no st.mgr.past_df }
            caps := capInsert (capErase st.caps (roomKey building office))
              (roomKey nb no) new_capacity }
    else
      let cur2 := (relocateDF building office nb no st.mgr.current_df).filter
        (fun p => !(atRoom nb no p && containsCI "STORAGE" p.name))
      .ok { mgr :=
              { current_df := if cur2.any (atRoom nb no) then cur2
                  else cur2 ++ [placeholderRecord nb no]
                upcoming_df := relocateDF building office nb no st.mgr.upcoming_df
                past_df := relocateDF building office nb no st.mgr.past_df }
            caps := capInsert (capErase st.caps (roomKey building office))
              (roomKey nb no) new_capacity }
  else
    .ok { mgr :=
            { current_df := relocateDF building office nb no st.mgr.current_df
              upcoming_df := relocateDF building office nb no st.mgr.upcoming_df
              past_df := relocateDF building office nb no st.mgr.past_df }
          caps := capInsert (capErase st.caps (roomKey building office))
            (roomKey nb no) new_capacity }

/-- Modelled from the spec (§4.1 step 7): a floor label read as a
number, `none` when non-numeric (the spec orders non-numeric floors
last, as infinity). -/
def specFloorKey (s : String) : Option Nat :=
  if s.data ≠ [] ∧ s.data.all Char.isDigit then
    some (s.data.foldl (fun n c => 10 * n + (c.toNat - 48)) 0)
  else none

/-- Modelled from the spec: strict order on parsed floors, `none`
(non-numeric) being the top element. -/
def specFloorLtB : Option Nat → Option Nat → Bool
  | some m, some n => decide (m < n)
  | some _, none => true
  | none, _ => false

/-- Modelled from the spec (§4.1 step 7): rows ordered by the triple
`(building, floor-as-numeric-else-infinity, office)`. -/
def specRowLe (a b : OccRow) : Prop :=
  strLt a.building b.building = true ∨
    (a.building = b.building ∧
      (specFloorLtB (specFloorKey a.floor) (specFloorKey b.floor) = true ∨
        (specFloorKey a.floor = specFloorKey b.floor ∧ strLe a.office b.office = true)))

instance : DecidableRel specRowLe := fun a b => by
  unfold specRowLe; exact inferInstance

/-- Shorthand for an occupant record whose Email address and Position
are empty. -/
def mkPerson (name status office building : String) : Person :=
  ⟨name, status, "", "", office, building⟩

/-- C1 scenario input: room `("North","3.02")` with a `STORAGE`
sentinel only, configured capacity 0. -/
def c1rows : List Person := [mkPerson "STORAGE" "Current" "3.02" "North"]

/-- C1 scenario capacity table. -/
def c1caps : List (String × Int) := [("North:3.02", 0)]

/-- C3 counterexample input: one real occupant in a room whose
configured capacity is 0. -/
def c3rows : List Person := [mkPerson "Ana" "Current" "1.01" "B"]

/-- C3 counterexample capacity table. -/
def c3caps : List (String × Int) := [("B:1.01", 0)]

/-- Witness roster for the occupancy-formula claims: one occupant, no
configured capacity (so the default 2 applies). -/
def w23rows : List Person := [mkPerson "Ann" "Current" "1.01" "B"]

/-- The derived row of `w23rows` with the empty capacity table. -/
def w23row : OccRow := ⟨"B", "1.01", 1, "1", false, 2, 1, .val 50, "medium"⟩

/-- C4 counterexample batch: two rows sharing one Name, one of them
with a changed status. -/
def c4batch : List Person :=
  [mkPerson "Alice" "Past" "1.01" "North", mkPerson "Alice" "Current" "1.01" "North"]

/-- C4 witness batch: a 3-row grid with distinct names where one row
moved to each of the other two partitions. -/
def w4batch : List Person :=
  [mkPerson "Ann" "Past" "1.01" "N", mkPerson "Bob" "Current" "1.02" "N",
    mkPerson "Cal" "Upcoming" "1.03" "N"]

/-- C5 witness state: three real current occupants in regular room
`("N","1.01")`. -/
def w5st : RoomMgrState :=
  ⟨⟨[mkPerson "P1" "Current" "1.01" "N", mkPerson "P2" "Current" "1.01" "N",
      mkPerson "P3" "Current" "1.01" "N"], [], []⟩, [("N:1.01", 3)]⟩

/-- C5 counterexample state: the room `("N","1.01")` holds one real
current occupant and one real upcoming occupant. -/
def c5st : RoomMgrState :=
  ⟨⟨[mkPerson "A" "Current" "1.01" "N"], [mkPerson "U" "Upcoming" "1.01" "N"], []⟩, []⟩

/-- C7 counterexample store: a past occupant named Bob exists. -/
def c7mgr : OccMgr := ⟨[], [], [mkPerson "Bob" "Past" "" ""]⟩

/-- C7 witness store: one current and one upcoming occupant. -/
def w7mgr : OccMgr :=
  ⟨[mkPerson "Cur" "Current" "1.01" "N"], [mkPerson "Upc" "Upcoming" "1.02" "N"], []⟩

/-- C8 counterexample input: a non-empty roster that has Building and
Office columns but no Name column. -/
def c8df : DataTable := ⟨false, true, true, [mkPerson "Ana" "Current" "1.01" "B"]⟩

/-- C9 counterexample roster: floors `10` and `2` sort numerically as
`2 < 10` but as strings `"10" < "2"`. -/
def c9rows : List Person :=
  [mkPerson "Ann" "Current" "10.01" "B", mkPerson "Bob" "Current" "2.01" "B"]

/-- The single derived row of the C1 scenario (the count includes the
sentinel record). -/
def c1row : OccRow := ⟨"North", "3.02", 1, "3", true, 0, -1, .posInf, "storage"⟩

/-- The single derived row of the C3 counterexample input. -/
def c3row : OccRow := ⟨"B", "1.01", 1, "1", false, 0, -1, .posInf, "overfilled"⟩

/-- The state produced by converting room `("N","1.01")` of `w5st` to
storage at the new key `("N","1.02")`. -/
def w5res : RoomMgrState :=
  ⟨⟨[storageRecord "N" "1.02"], [], []⟩, [("N:1.02", 0)]⟩

/-- Any member of the derived table is the derived row of some group
key. -/
theorem mem_calcRows {rows : List Person} {caps : List (String × Int)}
    {r : OccRow} (h : r ∈ calcRows rows caps) :
    ∃ k, r = mkRow rows caps k := by
  unfold calcRows at h
  rw [List.mem_insertionSort] at h
  obtain ⟨k, _, rfl⟩ := List.mem_map.mp h
  exact ⟨k, rfl⟩

/-- The derived table of a one-record roster is the one derived row of
that record's room. -/
theorem calcRows_singleton (p : Person) (caps : List (String × Int)) :
    calcRows [p] caps = [mkRow [p] caps (p.building, p.office)] := by
  unfold calcRows
  rw [List.map_singleton, List.dedup_cons_of_not_mem (List.not_mem_nil _),
    List.dedup_nil]
  simp [List.insertionSort, List.orderedInsert]

/-- The structural comparison `chLt` decides the lexicographic order
on character lists. -/
theorem chLt_iff (a b : List Char) : chLt a b = true ↔ List.Lex (· < ·) a b := by
  induction a generalizing b with
  | nil =>
    cases b with
    | nil => exact ⟨nofun, nofun⟩
    | cons b bs => exact ⟨fun _ => .nil, fun _ => rfl⟩
  | cons a as ih =>
    cases b with
    | nil => exact ⟨nofun, nofun⟩
    | cons b bs =>
      simp only [chLt]
      by_cases h1 : a < b
      · rw [if_pos h1]
        exact ⟨fun _ => .rel h1, fun _ => rfl⟩
      · rw [if_neg h1]
        by_cases h2 : b < a
        · rw [if_pos h2]
          constructor
          · nofun
          · intro h
            cases h with
            | cons h' => exact absurd h2 (lt_irrefl _)
            | rel h' => exact absurd h' h1
        · rw [if_neg h2]
          have hab : a = b := le_antisymm (not_lt.mp h2) (not_lt.mp h1)
          subst hab
          constructor
          · intro h; exact .cons ((ih bs).mp h)
          · intro h
            cases h with
            | cons h' => exact (ih bs).mpr h'
            | rel h' => exact absurd h' h1

/-- The structural comparison `strLt` decides `<` on `String`. -/
theorem strLt_iff (a b : String) : strLt a b = true ↔ a < b := by
  rw [strLt, chLt_iff]
  constructor
  · intro h; exact String.lt_iff_toList_lt.mpr h
  · intro h; exact String.lt_iff_toList_lt.mp h

/-- The structural comparison `strLe` decides `≤` on `String`. -/
theorem strLe_iff (a b : String) : strLe a b = true ↔ a ≤ b := by
  rw [strLe, Bool.or_eq_true, strLt_iff, beq_iff_eq]
  exact le_iff_lt_or_eq.symm

/-- The row order of the derived table is total. -/
theorem rowLe_total : ∀ a b, rowLe a b ∨ rowLe b a := by
  intro a b
  unfold rowLe
  simp only [strLt_iff, strLe_iff]
  rcases lt_trichotomy a.building b.building with h | h | h
  · exact Or.inl (Or.inl h)
  · rcases lt_trichotomy a.floor b.floor with h2 | h2 | h2
    · exact Or.inl (Or.inr ⟨h, Or.inl h2⟩)
    · rcases le_total a.office b.office with h3 | h3
      · exact Or.inl (Or.inr ⟨h, Or.inr ⟨h2, h3⟩⟩)
      · exact Or.inr (Or.inr ⟨h.symm, Or.inr ⟨h2.symm, h3⟩⟩)
    · exact Or.inr (Or.inr ⟨h.symm, Or.inl h2⟩)
  · exact Or.inr (Or.inl h)

/-- The row order of the derived table is transitive. -/
theorem rowLe_trans : ∀ a b c, rowLe a b → rowLe b c → rowLe a c := by
  intro a b c hab hbc
  unfold rowLe at *
  simp only [strLt_iff, strLe_iff] at *
  rcases hab with h1 | ⟨e1, h1⟩
  · rcases hbc with h2 | ⟨e2, h2⟩
    · exact Or.inl (h1.trans h2)
    · exact Or.inl (e2 ▸ h1)
  · rcases hbc with h2 | ⟨e2, h2⟩
    · exact Or.inl (e1 ▸ h2)
    · refine Or.inr ⟨e1.trans e2, ?_⟩
      rcases h1 with f1 | ⟨ef1, o1⟩
      · rcases h2 with f2 | ⟨ef2, o2⟩
        · exact Or.inl (f1.trans f2)
        · exact Or.inl (ef2 ▸ f1)
      · rcases h2 with f2 | ⟨ef2, o2⟩
        · exact Or.inl (ef1 ▸ f2)
        · exact Or.inr ⟨ef1.trans ef2, o1.trans o2⟩

/-- C10: for every occupant record and every status string other than
`Current`, `Upcoming`, or `Past`, `add_occupant` returns `True` while
leaving all three partitions unchanged. -/
theorem C10_theorem (m : OccMgr) (occ : Person) (status : String)
    (h1 : status ≠ "Current") (h2 : status ≠ "Upcoming") (h3 : status ≠ "Past") :
    add_occupant m occ status = (m, true) := by
  simp [add_occupant, h1, h2, h3]

/-- Witness for C10: a concrete bogus status is accepted with no
effect. -/
theorem C10_witness :
    add_occupant ⟨[], [], []⟩ (mkPerson "X" "Bogus" "" "") "Bogus" =
      (⟨[], [], []⟩, true) :=
  C10_theorem ⟨[], [], []⟩ (mkPerson "X" "Bogus" "" "") "Bogus"
    (by decide) (by decide) (by decide)

/-- C8 counterexample: a non-empty roster with Building and Office
columns but no Name column makes `calculate_occupancy` raise a
`KeyError` (line 42 of models.py), refuting the claim that the
computation never fails on a column-deficient input. -/
theorem C8_counterexample :
    c8df.hasName = false ∧
    calculate_occupancy c8df [] = .error "KeyError: Name" := ⟨rfl, rfl⟩

/-- C8 as amended: an empty roster, or one lacking the Building or the
Office column, yields an empty derived table without failing, and any
input with the Name column present never fails — but a non-empty input
that has Building and Office and lacks only Name raises (see the
counterexample). -/
theorem C8_theorem (df : DataTable) (caps : List (String × Int)) :
    (df.rows = [] ∨ df.hasOffice = false ∨ df.hasBuilding = false →
      calculate_occupancy df caps = .ok []) ∧
    (df.hasName = true → (calculate_occupancy df caps).isOk = true) := by
  constructor
  · intro h
    rcases h with h | h | h <;> simp [calculate_occupancy, h]
  · intro h
    unfold calculate_occupancy
    by_cases h0 : df.rows.isEmpty || !df.hasOffice || !df.hasBuilding <;>
      simp [h0, h, Except.isOk, Except.toBool]

/-- Witness for C8: the guarded inputs on concrete tables. -/
theorem C8_witness :
    calculate_occupancy ⟨true, true, true, []⟩ [] = .ok [] ∧
    (calculate_occupancy ⟨true, true, true, [mkPerson "A" "Current" "1.1" "B"]⟩ []).isOk
      = true :=
  ⟨(C8_theorem ⟨true, true, true, []⟩ []).1 (Or.inl rfl),
    (C8_theorem ⟨true, true, true, [mkPerson "A" "Current" "1.1" "B"]⟩ []).2 rfl⟩

/-- C2: every derived row's status equals the spec's priority-ordered
decision table applied to `(is_storage, occupants, remaining,
percentage)`, and a storage or empty room is never classified
`overfilled` whatever `remaining` (so whatever capacity) is. -/
theorem C2_theorem :
    (∀ (rows : List Person) (caps : List (String × Int)) (r : OccRow),
      r ∈ calcRows rows caps →
      r.status = statusSpec r.isStorage r.occupants r.remaining r.percentage) ∧
    (∀ (b : Bool) (occ : Nat) (rem : Int) (pct : PVal),
      b = true ∨ occ = 0 → get_room_status b occ rem pct ≠ "overfilled") := by
  constructor
  · intro rows caps r hr
    obtain ⟨k, rfl⟩ := mem_calcRows hr
    rfl
  · intro b occ rem pct h
    rcases h with rfl | rfl
    · simp [get_room_status]
    · cases b <;> simp [get_room_status]

/-- Witness for C2: the decision table on a concrete derived row, and
the overfilled guard at a negative remaining. -/
theorem C2_witness :
    w23row.status =
      statusSpec w23row.isStorage w23row.occupants w23row.remaining w23row.percentage ∧
    get_room_status true 0 (-5) (.val 0) ≠ "overfilled" :=
  ⟨C2_theorem.1 w23rows [] w23row (by decide),
    C2_theorem.2 true 0 (-5) (.val 0) (Or.inl rfl)⟩

/-- C9 counterexample: with floors `10` and `2` in one building the
derived table is ordered `10` before `2` (string order), which is not
sorted by the spec's numeric floor key. -/
theorem C9_counterexample :
    ¬ List.Pairwise specRowLe (calcRows c9rows []) := by
  have he : calcRows c9rows [] =
      [⟨"B", "10.01", 1, "10", false, 2, 1, .val 50, "medium"⟩,
        ⟨"B", "2.01", 1, "2", false, 2, 1, .val 50, "medium"⟩] := by decide
  rw [he]
  intro h
  have h2 := (List.pairwise_cons.mp h).1 _ (List.mem_cons_self _ _)
  exact absurd h2 (by decide)

/-- C9 as amended: the derived occupancy table is sorted by the triple
`(building, floor, office)` with the floor compared as a string (the
code sorts the Floor column lexicographically, not numerically). -/
theorem C9_theorem (rows : List Person) (caps : List (String × Int)) :
    List.Pairwise rowLe (calcRows rows caps) := by
  haveI : IsTotal OccRow rowLe := ⟨rowLe_total⟩
  haveI : IsTrans OccRow rowLe := ⟨rowLe_trans⟩
  exact List.sorted_insertionSort rowLe _

/-- C1 counterexample: in the scenario of the claim — room
`("North","3.02")` whose only record is a `STORAGE` sentinel — the code
counts the sentinel: the derived row has `occupants == 1`, not `0`
(line 35 of models.py sizes the whole group, sentinels included). -/
theorem C1_counterexample :
    (calcRows c1rows c1caps).map (fun r => (r.occupants, r.isStorage, r.status)) =
      [(1, true, "storage")] := by decide

/-- C1 as amended: the `occupants` value counts every current record of
the `(building, office)` group, sentinel `STORAGE`/`PLACEHOLDER`
records included; in particular a room whose only record is a single
`STORAGE` sentinel derives `occupants == 1` (not 0), with
`is_storage == True` and `status == 'storage'`, whatever capacity is
configured. -/
theorem C1_theorem :
    (∀ (rows : List Person) (caps : List (String × Int)) (r : OccRow),
      r ∈ calcRows rows caps →
      r.occupants = (rows.filter (fun p =>
        p.building == r.building && p.office == r.office)).length) ∧
    (∀ (caps : List (String × Int)) (p : Person),
      containsCI "STORAGE" p.name = true →
      ∀ r ∈ calcRows [p] caps,
        r.occupants = 1 ∧ r.isStorage = true ∧ r.status = "storage") := by
  constructor
  · intro rows caps r hr
    obtain ⟨k, rfl⟩ := mem_calcRows hr
    rfl
  · intro caps p hp r hr
    rw [calcRows_singleton, List.mem_singleton] at hr
    subst hr
    refine ⟨?_, ?_, ?_⟩ <;> simp [mkRow, get_room_status, hp]

/-- Witness for C1: both parts at the concrete scenario row. -/
theorem C1_witness :
    c1row.occupants = (c1rows.filter (fun p =>
      p.building == c1row.building && p.office == c1row.office)).length ∧
    (c1row.occupants = 1 ∧ c1row.isStorage = true ∧ c1row.status = "storage") :=
  ⟨C1_theorem.1 c1rows c1caps c1row (by decide),
    C1_theorem.2 c1caps (mkPerson "STORAGE" "Current" "3.02" "North")
      (by decide) c1row (by decide)⟩

/-- C3 counterexample: a room with one occupant and configured capacity
0 derives `Percentage == inf` (pandas division by zero), an unbounded
value, refuting the claim that the percentage is a well-defined finite
value such as 0 when `max_capacity == 0`. -/
theorem C3_counterexample :
    (calcRows c3rows c3caps).map (fun r => (r.maxCapacity, r.percentage)) =
      [(0, PVal.posInf)] := by decide

/-- C3 as amended: for every derived row, `percentage` equals
`round(occupants / max_capacity * 100, 1)` (half-to-even at one
decimal) whenever `max_capacity ≠ 0`; when `max_capacity == 0` no
exception is raised, but the value is pandas' `inf` when
`occupants > 0` (and `NaN` when `occupants == 0`), not 0. -/
theorem C3_theorem :
    ∀ (rows : List Person) (caps : List (String × Int)) (r : OccRow),
      r ∈ calcRows rows caps →
      (r.maxCapacity ≠ 0 →
        r.percentage = PVal.val (pctRound1 (r.occupants : Int) r.maxCapacity)) ∧
      (r.maxCapacity = 0 →
        r.percentage = if r.occupants = 0 then PVal.nan else PVal.posInf) := by
  intro rows caps r hr
  obtain ⟨k, rfl⟩ := mem_calcRows hr
  constructor
  · intro h
    simp only [mkRow] at h ⊢
    rw [percentageOf, if_neg h]
  · intro h
    simp only [mkRow] at h ⊢
    rw [h, percentageOf, if_pos rfl]
    by_cases ho : (List.filter (fun p =>
        p.building == k.1 && p.office == k.2) rows).length = 0
    · simp [ho]
    · have hpos : (0 : Int) < (List.filter (fun p =>
          p.building == k.1 && p.office == k.2) rows).length :=
        Int.natCast_pos.mpr (Nat.pos_of_ne_zero ho)
    
      simp [ho, hpos, Int.natCast_eq_zero]

/-- Witness for C3: the formula on a default-capacity room and the
zero-capacity branch on the counterexample row. -/
theorem C3_witness :
    w23row.percentage = PVal.val (pctRound1 (w23row.occupants : Int) w23row.maxCapacity) ∧
    c3row.percentage = (if c3row.occupants = 0 then PVal.nan else PVal.posInf) :=
  ⟨(C3_theorem w23rows [] w23row (by decide)).1 (by decide),
    (C3_theorem c3rows c3caps c3row (by decide)).2 rfl⟩

/-- Filtering the pruned partition of `delete_room` for the deleted
room finds nothing, in each of the three guard cases of the code. -/
theorem filter_prune (p : Person → Bool) (df : List Person) :
    (if df.isEmpty then df
      else if df.any p then df.filter (fun x => !p x) else df).filter p = [] := by
  by_cases h0 : df.isEmpty
  · rw [List.isEmpty_iff] at h0
    subst h0
    simp
  · rw [if_neg h0]
    by_cases h1 : df.any p
    · rw [if_pos h1, List.filter_filter]
      have hpred : ∀ a : Person, (p a && !p a) = false := fun a => by
        cases p a <;> rfl
      simp [hpred]
    · rw [if_neg h1]
      rw [List.any_eq_true] at h1
      push_neg at h1
      rw [List.filter_eq_nil_iff]
      intro a ha hpa
      exact h1 a ha hpa

/-- The erased capacity key is no longer found. -/
theorem capErase_find (caps : List (String × Int)) (k : String) :
    (capErase caps k).find? (fun e => e.1 == k) = none := by
  rw [List.find?_eq_none]
  intro x hx
  have hm := (List.mem_filter.mp hx).2
  simp only [bne_iff_ne, ne_eq] at hm
  simp [hm]

/-- C6: `delete_room` removes the room's capacity entry and every
occupant record at that room in all three partitions. -/
theorem C6_theorem (st : RoomMgrState) (building office : String) :
    (delete_room st building office).caps.find?
      (fun e => e.1 == roomKey building office) = none ∧
    (delete_room st building office).mgr.current_df.filter (atRoom building office) = [] ∧
    (delete_room st building office).mgr.upcoming_df.filter (atRoom building office) = [] ∧
    (delete_room st building office).mgr.past_df.filter (atRoom building office) = [] := by
  refine ⟨capErase_find _ _, ?_, ?_, ?_⟩ <;> exact filter_prune _ _

/-- The name-removal loop keeps exactly the rows whose Name differs
from every moved row's Name. -/
theorem dropNames_eq (moved df : List Person) :
    dropNames moved df =
      df.filter (fun r => moved.all (fun occ => r.name != occ.name)) := by
  induction moved generalizing df with
  | nil => simp [dropNames]
  | cons m ms ih =>
    show dropNames ms (df.filter (fun r => r.name != m.name)) = _
    rw [ih, List.filter_filter]
    apply List.filter_congr
    intro r _
    simp [List.all_cons, Bool.and_comm]

/-- The kept/moved split of a partition updater: when no kept row
shares a Name with a moved row, the written partition is exactly the
submitted rows whose status is neither of the two moved statuses. -/
theorem updater_filter (updated : List Person) (s1 s2 : String)
    (h : ∀ r ∈ updated, r.status ≠ s1 → r.status ≠ s2 →
      ∀ s ∈ updated, s.status = s1 ∨ s.status = s2 → r.name ≠ s.name) :
    dropNames (updated.filter (fun r => r.status == s1) ++
        updated.filter (fun r => r.status == s2)) updated =
      updated.filter (fun r => !(r.status == s1) && !(r.status == s2)) := by
  rw [dropNames_eq]
  apply List.filter_congr
  intro r hr
  by_cases h1 : r.status = s1
  · have hmem : r ∈ updated.filter (fun x => x.status == s1) ++
        updated.filter (fun x => x.status == s2) :=
      List.mem_append_left _ (List.mem_filter.mpr ⟨hr, by simp [h1]⟩)
    have hfalse : (updated.filter (fun x => x.status == s1) ++
        updated.filter (fun x => x.status == s2)).all
          (fun occ => r.name != occ.name) = false := by
      rw [Bool.eq_false_iff]
      intro hall
      have := List.all_eq_true.mp hall r hmem
      simp at this
    rw [hfalse]
    simp [h1]
  · by_cases h2 : r.status = s2
    · have hmem : r ∈ updated.filter (fun x => x.status == s1) ++
          updated.filter (fun x => x.status == s2) :=
        List.mem_append_right _ (List.mem_filter.mpr ⟨hr, by simp [h2]⟩)
      have hfalse : (updated.filter (fun x => x.status == s1) ++
          updated.filter (fun x => x.status == s2)).all
            (fun occ => r.name != occ.name) = false := by
        rw [Bool.eq_false_iff]
        intro hall
        have := List.all_eq_true.mp hall r hmem
        simp at this
      rw [hfalse]
      simp [h2]
    · have htrue : (updated.filter (fun x => x.status == s1) ++
          updated.filter (fun x => x.status == s2)).all
            (fun occ => r.name != occ.name) = true := by
        rw [List.all_eq_true]
        intro occ hocc
        rcases List.mem_append.mp hocc with hm | hm
        · obtain ⟨hs, hst⟩ := List.mem_filter.mp hm
          have := h r hr h1 h2 occ hs (Or.inl (by simpa using hst))
          simpa using this
        · obtain ⟨hs, hst⟩ := List.mem_filter.mp hm
          have := h r hr h1 h2 occ hs (Or.inr (by simpa using hst))
          simpa using this
      rw [htrue]
      simp [h1, h2]

/-- C4 counterexample: a 2-row batch whose rows share the Name `Alice`,
one row moved to `Past` and one agreeing with the `Current` partition.
The agreeing row is also removed from the written partition (the
removal is by Name), refuting the claim that every agreeing row is
written in place. -/
theorem C4_counterexample :
    (mkPerson "Alice" "Current" "1.01" "North").status = "Current" ∧
    mkPerson "Alice" "Current" "1.01" "North" ∈ c4batch ∧
    update_current_occupants ⟨[], [], []⟩ c4batch =
      ⟨[], [], [mkPerson "Alice" "Past" "1.01" "North"]⟩ := by decide

/-- C4 as amended: for each partition updater, provided no kept row
(status not naming one of the other two partitions) shares a Name with
a moved row, the written partition becomes exactly the batch rows whose
status does not name another partition (in place, unchanged), and the
rows whose status names another partition are appended to that
partition and dropped from the written one. -/
theorem C4_theorem :
    (∀ (m : OccMgr) (updated : List Person),
      (∀ r ∈ updated, r.status ≠ "Upcoming" → r.status ≠ "Past" →
        ∀ s ∈ updated, s.status = "Upcoming" ∨ s.status = "Past" → r.name ≠ s.name) →
      update_current_occupants m updated =
        { current_df := updated.filter
            (fun r => !(r.status == "Upcoming") && !(r.status == "Past"))
          upcoming_df := m.upcoming_df ++ updated.filter (fun r => r.status == "Upcoming")
          past_df := m.past_df ++ updated.filter (fun r => r.status == "Past") }) ∧
    (∀ (m : OccMgr) (updated : List Person),
      (∀ r ∈ updated, r.status ≠ "Current" → r.status ≠ "Past" →
        ∀ s ∈ updated, s.status = "Current" ∨ s.status = "Past" → r.name ≠ s.name) →
      update_upcoming_occupants m updated =
        { current_df := m.current_df ++ updated.filter (fun r => r.status == "Current")
          upcoming_df := updated.filter
            (fun r => !(r.status == "Current") && !(r.status == "Past"))
          past_df := m.past_df ++ updated.filter (fun r => r.status == "Past") }) ∧
    (∀ (m : OccMgr) (updated : List Person),
      (∀ r ∈ updated, r.status ≠ "Current" → r.status ≠ "Upcoming" →
        ∀ s ∈ updated, s.status = "Current" ∨ s.status = "Upcoming" → r.name ≠ s.name) →
      update_past_occupants m updated =
        { current_df := m.current_df ++ updated.filter (fun r => r.status == "Current")
          upcoming_df := m.upcoming_df ++ updated.filter (fun r => r.status == "Upcoming")
          past_df := updated.filter
            (fun r => !(r.status == "Current") && !(r.status == "Upcoming")) }) := by
  refine ⟨?_, ?_, ?_⟩ <;> intro m updated h <;>
    [rw [update_current_occupants]; rw [update_upcoming_occupants];
      rw [update_past_occupants]] <;>
    rw [updater_filter updated _ _ h]

/-- Witness for C4: the 3-row batch of the spec's test (one row moved
to each of the other two partitions), applied to the current-partition
updater. -/
theorem C4_witness :
    update_current_occupants ⟨[], [], []⟩ w4batch =
      { current_df := w4batch.filter
          (fun r => !(r.status == "Upcoming") && !(r.status == "Past"))
        upcoming_df := [] ++ w4batch.filter (fun r => r.status == "Upcoming")
        past_df := [] ++ w4batch.filter (fun r => r.status == "Past") } :=
  C4_theorem.1 ⟨[], [], []⟩ w4batch (by decide)

/-- With no exact Name match in the partition, `assignFirst` reports
failure. -/
theorem assignFirst_eq_none (name b o : String) (l : List Person)
    (h : ∀ q ∈ l, q.name ≠ name) : assignFirst name b o l = none := by
  induction l with
  | nil => rfl
  | cons p rest ih =>
    have hp : ¬(p.name == name) = true := by
      simp [h p (List.mem_cons_self p rest)]
    simp only [assignFirst]
    rw [if_neg hp, ih (fun q hq => h q (List.mem_cons_of_mem p hq))]
    rfl

/-- `assignFirst` updates exactly the first exact Name match, leaving
every other record untouched. -/
theorem assignFirst_append (name b o : String) (pre : List Person) (p : Person)
    (post : List Person) (hpre : ∀ q ∈ pre, q.name ≠ name) (hp : p.name = name) :
    assignFirst name b o (pre ++ p :: post) =
      some (pre ++ { p with building := b, office := o } :: post) := by
  induction pre with
  | nil =>
    simp only [List.nil_append, assignFirst]
    rw [if_pos (by simp [hp])]
  | cons q rest ih =>
    have hq : ¬(q.name == name) = true := by
      simp [hpre q (List.mem_cons_self q rest)]
    simp only [List.cons_append, assignFirst]
    rw [if_neg hq, List.append_eq, ih (fun x hx => hpre x (List.mem_cons_of_mem q hx))]
    rfl

/-- C7 counterexample: an exact match named `Bob` exists in the `Past`
partition, yet `assign_occupant_to_room` with status `Past` reports
failure and changes nothing (line 302 of models.py returns `False` for
any partition other than Current/Upcoming), refuting the claim for the
`Past` partition status. -/
theorem C7_counterexample :
    c7mgr.past_df.any (fun p => p.name == "Bob") = true ∧
    assign_occupant_to_room c7mgr "Bob" "North" "3.01" "Past" = (c7mgr, false) := by
  exact ⟨rfl, rfl⟩

/-- C7 as amended: `assign_occupant_to_room` does an exact-Name lookup
only for the `Current` and `Upcoming` partitions (including their UI
labels); there it updates Building/Office on the first match and
returns success, and returns failure with no mutation when no exact
match exists; for any other status — `Past` included — it always
returns failure with no mutation.  The function is total (never
raises). -/
theorem C7_theorem :
    (∀ (m : OccMgr) (n b o st : String),
      st ≠ "Current" → st ≠ "Current Occupants" →
      st ≠ "Upcoming" → st ≠ "Upcoming Occupants" →
      assign_occupant_to_room m n b o st = (m, false)) ∧
    (∀ (m : OccMgr) (n b o st : String),
      st = "Current" ∨ st = "Current Occupants" →
      (∀ q ∈ m.current_df, q.name ≠ n) →
      assign_occupant_to_room m n b o st = (m, false)) ∧
    (∀ (m : OccMgr) (n b o st : String) (pre : List Person) (p : Person)
        (post : List Person),
      st = "Current" ∨ st = "Current Occupants" →
      m.current_df = pre ++ p :: post →
      (∀ q ∈ pre, q.name ≠ n) → p.name = n →
      assign_occupant_to_room m n b o st =
        ({ m with current_df :=
            pre ++ { p with building := b, office := o } :: post }, true)) ∧
    (∀ (m : OccMgr) (n b o st : String),
      st = "Upcoming" ∨ st = "Upcoming Occupants" →
      (∀ q ∈ m.upcoming_df, q.name ≠ n) →
      assign_occupant_to_room m n b o st = (m, false)) ∧
    (∀ (m : OccMgr) (n b o st : String) (pre : List Person) (p : Person)
        (post : List Person),
      st = "Upcoming" ∨ st = "Upcoming Occupants" →
      m.upcoming_df = pre ++ p :: post →
      (∀ q ∈ pre, q.name ≠ n) → p.name = n →
      assign_occupant_to_room m n b o st =
        ({ m with upcoming_df :=
            pre ++ { p with building := b, office := o } :: post }, true)) := by
  refine ⟨?_, ?_, ?_, ?_, ?_⟩
  · intro m n b o st h1 h2 h3 h4
    simp [assign_occupant_to_room, h1, h2, h3, h4]
  · intro m n b o st hst h
    rcases hst with rfl | rfl <;>
      simp [assign_occupant_to_room, assignFirst_eq_none n b o _ h]
  · intro m n b o st pre p post hst hdf hpre hp
    rcases hst with rfl | rfl <;>
      simp [assign_occupant_to_room, hdf,
        assignFirst_append n b o pre p post hpre hp]
  · intro m n b o st hst h
    rcases hst with rfl | rfl <;>
      simp [assign_occupant_to_room, assignFirst_eq_none n b o _ h]
  · intro m n b o st pre p post hst hdf hpre hp
    rcases hst with rfl | rfl <;>
      simp [assign_occupant_to_room, hdf,
        assignFirst_append n b o pre p post hpre hp]

/-- Witness for C7: each clause at a concrete store. -/
theorem C7_witness :
    assign_occupant_to_room w7mgr "X" "B" "9.99" "Past" = (w7mgr, false) ∧
    assign_occupant_to_room w7mgr "Nobody" "B" "9.99" "Current" = (w7mgr, false) ∧
    assign_occupant_to_room w7mgr "Cur" "B2" "2.02" "Current" =
      ({ w7mgr with current_df :=
          [] ++ { mkPerson "Cur" "Current" "1.01" "N" with
            building := "B2", office := "2.02" } :: [] }, true) ∧
    assign_occupant_to_room w7mgr "Nobody" "B" "9.99" "Upcoming" = (w7mgr, false) ∧
    assign_occupant_to_room w7mgr "Upc" "B2" "2.03" "Upcoming" =
      ({ w7mgr with upcoming_df :=
          [] ++ { mkPerson "Upc" "Upcoming" "1.02" "N" with
            building := "B2", office := "2.03" } :: [] }, true) :=
  ⟨C7_theorem.1 w7mgr "X" "B" "9.99" "Past"
      (by decide) (by decide) (by decide) (by decide),
    C7_theorem.2.1 w7mgr "Nobody" "B" "9.99" "Current" (Or.inl rfl) (by decide),
    C7_theorem.2.2.1 w7mgr "Cur" "B2" "2.02" "Current" []
      (mkPerson "Cur" "Current" "1.01" "N") [] (Or.inl rfl) rfl
      (by decide) rfl,
    C7_theorem.2.2.2.1 w7mgr "Nobody" "B" "9.99" "Upcoming" (Or.inl rfl) (by decide),
    C7_theorem.2.2.2.2 w7mgr "Upc" "B2" "2.03" "Upcoming" []
      (mkPerson "Upc" "Upcoming" "1.02" "N") [] (Or.inl rfl) rfl
      (by decide) rfl⟩

/-- A room key pair different from `(nb, no)` makes the Boolean room
test at `(b, o)` of a record relocated to (or created at) `(nb, no)`
false. -/
theorem pairNe_bool {b o nb no : String} (hk : (b, o) ≠ (nb, no)) :
    ((nb == b) && (no == o)) = false := by
  by_cases hb : nb = b
  · subst hb
    by_cases h2 : no = o
    · exact (hk (by subst h2; rfl)).elim
    · simp [h2]
  · simp [hb]

/-- A regular room (no STORAGE-named current record) probes as
non-storage. -/
theorem wasStorage_false {cur : List Person} {b o : String}
    (h : ∀ p ∈ cur, atRoom b o p = true → containsCI "STORAGE" p.name = false) :
    wasStorage cur b o = false := by
  unfold wasStorage
  rw [Bool.eq_false_iff]
  intro hany
  rw [List.any_eq_true] at hany
  obtain ⟨p, hp, hcond⟩ := hany
  rw [Bool.and_eq_true] at hcond
  rw [h p hp hcond.1] at hcond
  exact absurd hcond.2 (by simp)

/-- A partition with no record at the old room is left untouched by the
relocation step. -/
theorem relocateDF_of_empty {df : List Person} {b o : String} (nb no : String)
    (h : df.filter (atRoom b o) = []) : relocateDF b o nb no df = df := by
  unfold relocateDF
  rw [h]
  rfl

/-- After relocation away from `(b, o)` to a different key, no record
of the partition sits at `(b, o)` any more. -/
theorem relocateDF_not_old {b o nb no : String} (hk : (b, o) ≠ (nb, no))
    (df : List Person) :
    ∀ x ∈ relocateDF b o nb no df, atRoom b o x = false := by
  intro x hx
  unfold relocateDF at hx
  by_cases h0 : ((df.filter (atRoom b o)).map (reloc nb no)).isEmpty
  · rw [if_pos h0] at hx
    rw [List.isEmpty_iff, List.map_eq_nil_iff, List.filter_eq_nil_iff] at h0
    exact Bool.eq_false_iff.mpr (h0 x hx)
  · rw [if_neg h0] at hx
    rcases List.mem_append.mp hx with hm | hm
    · have := (List.mem_filter.mp hm).2
      simpa using this
    · obtain ⟨y, _, rfl⟩ := List.mem_map.mp hm
      show ((nb == b) && (no == o)) = false
      exact pairNe_bool hk

/-- C5 counterexample: converting regular room `("N","1.01")` — which
holds a real current occupant and a real upcoming occupant — to
storage at `("N","1.02")` deletes only from the current partition
(models.py lines 516-530): the upcoming occupant `U`, a real occupant
record previously at that room, survives relocated to the new key,
refuting "all real occupant records previously at that room are
gone". -/
theorem C5_counterexample :
    update_room c5st "N" "1.01" "N" "1.02" 0 "Storage" =
      .ok ⟨⟨[storageRecord "N" "1.02"], [mkPerson "U" "Upcoming" "1.02" "N"], []⟩,
        [("N:1.02", 0)]⟩ := rfl

/-- C5 as amended: converting a regular room that holds current
occupants — and whose records are all in the current partition — to
storage at a different key deletes every record previously at the
room, leaves exactly one `STORAGE`/`Current` sentinel at the new key
in the current partition, and leaves no record at the old key in any
partition. -/
theorem C5_theorem (st : RoomMgrState) (b o nb no : String) (cap : Int)
    (hk : (b, o) ≠ (nb, no))
    (hreg : ∀ p ∈ st.mgr.current_df, atRoom b o p = true →
      containsCI "STORAGE" p.name = false)
    (hocc : st.mgr.current_df.filter (atRoom b o) ≠ [])
    (hup : st.mgr.upcoming_df.filter (atRoom b o) = [])
    (hpast : st.mgr.past_df.filter (atRoom b o) = []) :
    (update_room st b o nb no cap "Storage").isOk = true ∧
    ∀ st', update_room st b o nb no cap "Storage" = .ok st' →
      (∀ p ∈ st.mgr.current_df, atRoom b o p = true →
        p ∉ st'.mgr.current_df ∧ p ∉ st'.mgr.upcoming_df ∧ p ∉ st'.mgr.past_df) ∧
      st'.mgr.current_df.filter (atRoom nb no) = [storageRecord nb no] ∧
      st'.mgr.current_df.filter (atRoom b o) = [] ∧
      st'.mgr.upcoming_df.filter (atRoom b o) = [] ∧
      st'.mgr.past_df.filter (atRoom b o) = [] := by
  have hws : wasStorage st.mgr.current_df b o = false := wasStorage_false hreg
  have hne : ¬ ((st.mgr.current_df.filter (atRoom b o)).map (reloc nb no)).isEmpty = true := by
    intro hemp
    rw [List.isEmpty_iff, List.map_eq_nil_iff] at hemp
    exact hocc hemp
  have hup1 : relocateDF b o nb no st.mgr.upcoming_df = st.mgr.upcoming_df :=
    relocateDF_of_empty nb no hup
  have hpast1 : relocateDF b o nb no st.mgr.past_df = st.mgr.past_df :=
    relocateDF_of_empty nb no hpast
  have hstorage_at : atRoom nb no (storageRecord nb no) = true := by
    simp [atRoom, storageRecord]
  have hstorage_old : atRoom b o (storageRecord nb no) = false := pairNe_bool hk
  have ha_cur : ((relocateDF b o nb no st.mgr.current_df).filter
      (fun p => !atRoom nb no p) ++ [storageRecord nb no]).filter (atRoom nb no) =
      [storageRecord nb no] := by
    rw [List.filter_append, List.filter_filter]
    have h1 : (relocateDF b o nb no st.mgr.current_df).filter
        (fun a => atRoom nb no a && !atRoom nb no a) = [] := by
      rw [List.filter_eq_nil_iff]
      intro a _ hcontra
      rw [Bool.and_eq_true] at hcontra
      rw [hcontra.1] at hcontra
      simpa using hcontra.2
    rw [h1]
    simp [List.filter, hstorage_at]
  have hb_cur : ((relocateDF b o nb no st.mgr.current_df).filter
      (fun p => !atRoom nb no p) ++ [storageRecord nb no]).filter (atRoom b o) = [] := by
    rw [List.filter_append, List.filter_filter]
    have h1 : (relocateDF b o nb no st.mgr.current_df).filter
        (fun a => atRoom b o a && !atRoom nb no a) = [] := by
      rw [List.filter_eq_nil_iff]
      intro a ha hcontra
      rw [Bool.and_eq_true] at hcontra
      have hfalse := relocateDF_not_old hk st.mgr.current_df a ha
      rw [hfalse] at hcontra
      simpa using hcontra.1
    rw [h1]
    simp [List.filter, hstorage_old]
  unfold update_room
  rw [hws, if_pos (by decide), if_neg hne, if_pos (by decide)]
  refine ⟨rfl, ?_⟩
  intro st' hok
  injection hok with hok
  subst hok
  refine ⟨?_, ha_cur, hb_cur, ?_, ?_⟩
  · intro p hp hat
    refine ⟨?_, ?_, ?_⟩
    · intro hmem
      have hm2 : p ∈ ((relocateDF b o nb no st.mgr.current_df).filter
          (fun q => !atRoom nb no q) ++ [storageRecord nb no]).filter (atRoom b o) :=
        List.mem_filter.mpr ⟨hmem, hat⟩
      rw [hb_cur] at hm2
      exact absurd hm2 (List.not_mem_nil p)
    · intro hmem
      rw [hup1] at hmem
      have hm2 : p ∈ st.mgr.upcoming_df.filter (atRoom b o) :=
        List.mem_filter.mpr ⟨hmem, hat⟩
      rw [hup] at hm2
      exact absurd hm2 (List.not_mem_nil p)
    · intro hmem
      rw [hpast1] at hmem
      have hm2 : p ∈ st.mgr.past_df.filter (atRoom b o) :=
        List.mem_filter.mpr ⟨hmem, hat⟩
      rw [hpast] at hm2
      exact absurd hm2 (List.not_mem_nil p)
  · rw [hup1]
    exact hup
  · rw [hpast1]
    exact hpast

/-- Witness for C5: three real current occupants of regular room
`("N","1.01")` are evicted by the conversion to storage at
`("N","1.02")`; only the sentinel remains. -/
theorem C5_witness :
    (mkPerson "P1" "Current" "1.01" "N" ∉ w5res.mgr.current_df ∧
      mkPerson "P1" "Current" "1.01" "N" ∉ w5res.mgr.upcoming_df ∧
      mkPerson "P1" "Current" "1.01" "N" ∉ w5res.mgr.past_df) ∧
    w5res.mgr.current_df.filter (atRoom "N" "1.02") = [storageRecord "N" "1.02"] ∧
    w5res.mgr.current_df.filter (atRoom "N" "1.01") = [] ∧
    w5res.mgr.upcoming_df.filter (atRoom "N" "1.01") = [] ∧
    w5res.mgr.past_df.filter (atRoom "N" "1.01") = [] := by
  have h := (C5_theorem w5st "N" "1.01" "N" "1.02" 0 (by decide) (by decide)
    (by decide) rfl rfl).2 w5res rfl
  exact ⟨h.1 (mkPerson "P1" "Current" "1.01" "N") (by decide) (by decide),
    h.2.1, h.2.2.1, h.2.2.2.1, h.2.2.2.2⟩
